import Mathlib

/-!
Verification of the roadftp FTP client (`src/roadftp/ftp.py`).

We give a shallow embedding of the client's wire codec, session commands,
passive-mode handshake, listing-line parser and transfer operations, and prove
theorems checking the specification's claims against it.

Conventions of the embedding:
* Strings under character-level inspection are `List Char`; command-level
  strings are Lean `String`.
* Python exceptions become `Except Err _`.  The source uses one exception
  class `FTPError`; the spec's richer taxonomy (`ProtocolError`,
  `DataConnectionError`, ...) all correspond to `Err.ftp` raised by the code,
  while transport-level faults raised by the socket layer are `Err.transport`,
  Python `ValueError` is `Err.value`, and a read past the end of the supplied
  script (which in the real program would block forever or loop on EOF) is
  `Err.hang`.
* Socket I/O is replaced by explicit scripts: the control channel is a list of
  replies consumed in order, the data channel a list of recv events.
-/

/-- Error outcomes of the embedded operations. -/
inductive Err where
  | ftp        -- FTPError raised by the client code
  | transport  -- socket-level failure (timeout, reset, ...)
  | value      -- Python ValueError (int() on a malformed string)
  | index      -- Python IndexError (subscript of an empty split)
  | hang       -- the script ended: the real program would block or loop
deriving DecidableEq, Repr

/-- Python whitespace test (`str.split()` / `int()` stripping), ASCII subset. -/
def isPySpace (c : Char) : Bool :=
  c = ' ' || c = '\t' || c = '\n' || c = '\r' || c = '\x0b' || c = '\x0c'

/-- Numeric value of a list of decimal digit characters, most significant first. -/
def digitsNat (ds : List Char) : Nat :=
  ds.foldl (fun a c => a * 10 + (c.toNat - '0'.toNat)) 0

/-- Python `str.isdigit()` restricted to ASCII: nonempty and all decimal digits. -/
def pyIsDigitStr (s : List Char) : Bool :=
  !s.isEmpty && s.all Char.isDigit

/-- Strip Python whitespace from both ends. -/
def pyStrip (s : List Char) : List Char :=
  ((s.dropWhile isPySpace).reverse.dropWhile isPySpace).reverse

/-- Nonempty all-digit string to its value, else `none`. -/
def digitsVal (ds : List Char) : Option Nat :=
  if pyIsDigitStr ds then some (digitsNat ds) else none

/-- Model of Python `int(s)` on ASCII input: strip whitespace, optional sign,
then a nonempty run of decimal digits; anything else raises `ValueError`
(here: `none`).  Underscore digit grouping is not modelled. -/
def pyInt (s : List Char) : Option Int :=
  let t := pyStrip s
  match t with
  | [] => none
  | c :: rest =>
    if c = '+' then (digitsVal rest).map Int.ofNat
    else if c = '-' then (digitsVal rest).map (fun n => -(n : Int))
    else (digitsVal t).map Int.ofNat

/-- The line-consuming loop of `FTPClient._read_response`: lines (already
stripped of CR/LF, as `readline().rstrip` produces them) are taken from the
stream until the first line of length at least 4 whose character at index 3 is
a space; that terminating line is included.  `none` when the stream runs out
first (the real loop would then spin on EOF forever). -/
def consumeResp : List (List Char) → Option (List (List Char))
  | [] => none
  | l :: rest =>
    if 4 ≤ l.length ∧ l[3]? = some ' ' then some [l]
    else (consumeResp rest).map (fun ls => l :: ls)

/-- The `"\n".join(lines)` of `_read_response`. -/
def joinNL (ls : List (List Char)) : List Char :=
  List.intercalate ['\n'] ls

/-- `FTPClient._read_response`, over a script of pre-stripped response lines:
consume lines up to the terminating line, parse `int(lines[-1][:3])`, return
the code with the newline-joined message. -/
def readResponse (stream : List (List Char)) : Except Err (Int × List Char) :=
  match consumeResp stream with
  | none => .error .hang
  | some lines =>
    match lines.getLast? with
    | none => .error .hang
    | some last =>
      match pyInt (last.take 3) with
      | none => .error .value
      | some code => .ok (code, joinNL lines)


/-!
Command-level session model.  Above the wire codec, every client operation
interacts with the control connection only through `_command` /
`_read_response`; we therefore abstract the control channel as a script of
already-decoded replies (each entry is what one `_read_response` call yields:
a `(code, message)` pair, or a raised transport error), plus the record of
command lines sent so far, which lets the theorems talk about what was and
was not sent.
-/

/-- Transfer mode (`FTPMode`). -/
inductive FTPMode where
  | active
  | passive
deriving DecidableEq, Repr

/-- Session configuration (`FTPConfig`).  `timeout` is kept abstract as a
natural number of seconds; it does not influence any modelled behaviour. -/
structure FTPConfig where
  host : String
  port : Nat
  username : String
  password : String
  timeout : Nat
  mode : FTPMode
  secure : Bool
deriving DecidableEq, Repr

/-- `FTPConfig` built from a host alone, with the dataclass field defaults
`port=21`, `username="anonymous"`, `password="anonymous@"`, `timeout=30`,
`mode=PASSIVE`, `secure=False`. -/
def defaultConfig (host : String) : FTPConfig :=
  ⟨host, 21, "anonymous", "anonymous@", 30, .passive, false⟩

/-- The configuration built by the module-level `connect(host)` helper when no
credentials are passed: it forwards its own defaults `username="anonymous"`,
`password="anonymous@"` into `FTPConfig`. -/
def connectConfig (host : String) : FTPConfig :=
  ⟨host, 21, "anonymous", "anonymous@", 30, .passive, false⟩

deriving instance DecidableEq for Except

/-- Control-channel state: the pending reply script and the commands sent. -/
structure Chan where
  replies : List (Except Err (Int × String))
  sent : List String
deriving DecidableEq, Repr

/-- One `_read_response` call at the command level: pop the next scripted
reply (a decoded `(code, message)` or a raised error). -/
def readReply (st : Chan) : Except Err (Int × String) × Chan :=
  match st.replies with
  | [] => (.error .hang, st)
  | r :: rest => (r, ⟨rest, st.sent⟩)

/-- `FTPClient._command`: send the command line, read one reply, and when an
expected code is given raise `FTPError` on mismatch.  The command is recorded
as sent before the reply is read, as `sendall` precedes `_read_response`. -/
def commandStep (st : Chan) (cmd : String) (expect : Option Int) :
    Except Err (Int × String) × Chan :=
  let st1 : Chan := ⟨st.replies, st.sent ++ [cmd]⟩
  match readReply st1 with
  | (.error e, st2) => (.error e, st2)
  | (.ok (code, msg), st2) =>
    match expect with
    | none => (.ok (code, msg), st2)
    | some exp => if code = exp then (.ok (code, msg), st2) else (.error .ftp, st2)

/-- Try to match the regex `\((\d+),(\d+),(\d+),(\d+),(\d+),(\d+)\)` anchored
at the head of the string.  Each `\d+` is a maximal nonempty digit run (the
following literal is never a digit, so greedy matching without backtracking is
exact here). -/
def matchPasvAt (s : List Char) : Option (Nat × Nat × Nat × Nat × Nat × Nat) :=
  match s with
  | '(' :: r0 =>
    let d1 := r0.takeWhile Char.isDigit
    let r1 := r0.dropWhile Char.isDigit
    match d1, r1 with
    | _ :: _, ',' :: r1' =>
      let d2 := r1'.takeWhile Char.isDigit
      let r2 := r1'.dropWhile Char.isDigit
      match d2, r2 with
      | _ :: _, ',' :: r2' =>
        let d3 := r2'.takeWhile Char.isDigit
        let r3 := r2'.dropWhile Char.isDigit
        match d3, r3 with
        | _ :: _, ',' :: r3' =>
          let d4 := r3'.takeWhile Char.isDigit
          let r4 := r3'.dropWhile Char.isDigit
          match d4, r4 with
          | _ :: _, ',' :: r4' =>
            let d5 := r4'.takeWhile Char.isDigit
            let r5 := r4'.dropWhile Char.isDigit
            match d5, r5 with
            | _ :: _, ',' :: r5' =>
              let d6 := r5'.takeWhile Char.isDigit
              let r6 := r5'.dropWhile Char.isDigit
              match d6, r6 with
              | _ :: _, ')' :: _ =>
                some (digitsNat d1, digitsNat d2, digitsNat d3,
                      digitsNat d4, digitsNat d5, digitsNat d6)
              | _, _ => none
            | _, _ => none
          | _, _ => none
        | _, _ => none
      | _, _ => none
    | _, _ => none
  | _ => none

/-- `re.search` of the PASV pattern: leftmost match wins. -/
def findPasv : List Char → Option (Nat × Nat × Nat × Nat × Nat × Nat)
  | [] => none
  | c :: rest =>
    match matchPasvAt (c :: rest) with
    | some r => some r
    | none => findPasv rest

/-- Decimal rendering of a natural number, as Python `str(x)` produces. -/
def natToStr (n : Nat) : String :=
  ⟨Nat.toDigits 10 n⟩

/-- The `".".join(str(x) for x in parts[:4])` of `_pasv`. -/
def dottedQuad (a b c d : Nat) : String :=
  natToStr a ++ "." ++ natToStr b ++ "." ++ natToStr c ++ "." ++ natToStr d

/-- `FTPClient._pasv`: send `PASV`, require code 227, extract the six
parenthesized integers, and return the dotted address and `p5*256 + p6`. -/
def pasvStep (st : Chan) : Except Err (String × Nat) × Chan :=
  match commandStep st "PASV" none with
  | (.error e, st1) => (.error e, st1)
  | (.ok (code, msg), st1) =>
    if code ≠ 227 then (.error .ftp, st1)
    else
      match findPasv msg.data with
      | none => (.error .ftp, st1)
      | some (a, b, c, d, p, q) => (.ok (dottedQuad a b c d, p * 256 + q), st1)


/-- Recursion core of Python `str.split(None, maxsplit)`: the input carries no
leading whitespace; each step takes a maximal non-whitespace token and strips
the following whitespace.  With `maxsplit` exhausted the whole remainder (its
leading whitespace already stripped, trailing kept) is the last field, unless
it is empty.  The fuel exceeds the input length, so it never runs out. -/
def pySplitGo (fuel : Nat) (s : List Char) (ms : Option Nat) : List (List Char) :=
  match fuel, s, ms with
  | 0, _, _ => []
  | _ + 1, [], _ => []
  | _ + 1, s, some 0 => [s]
  | f + 1, s, ms =>
    let tok := s.takeWhile (fun c => !isPySpace c)
    let rest := (s.dropWhile (fun c => !isPySpace c)).dropWhile isPySpace
    tok :: pySplitGo f rest (ms.map (fun m => m - 1))

/-- Python `s.split(None, maxsplit)` (`maxsplit = none` for unbounded):
split on runs of whitespace, discarding leading and trailing whitespace. -/
def pySplit (s : List Char) (ms : Option Nat) : List (List Char) :=
  pySplitGo (s.length + 1) (s.dropWhile isPySpace) ms


/-- `FTPClient.rename`: `RNFR` expecting 350, then `RNTO` expecting 250. -/
def renameStep (st : Chan) (old new : String) : Except Err Unit × Chan :=
  match commandStep st ("RNFR " ++ old) (some 350) with
  | (.error e, st1) => (.error e, st1)
  | (.ok _, st1) =>
    match commandStep st1 ("RNTO " ++ new) (some 250) with
    | (.error e, st2) => (.error e, st2)
    | (.ok _, st2) => (.ok (), st2)

/-- `FTPClient.size`: send `SIZE path` with no expected code; on reply code
213 return `int(msg.split()[-1])`, otherwise return 0. -/
def sizeStep (st : Chan) (path : String) : Except Err Int × Chan :=
  match commandStep st ("SIZE " ++ path) none with
  | (.error e, st1) => (.error e, st1)
  | (.ok (code, msg), st1) =>
    if code = 213 then
      match (pySplit msg.data none).getLast? with
      | none => (.error .index, st1)
      | some tok =>
        match pyInt tok with
        | none => (.error .value, st1)
        | some n => (.ok n, st1)
    else (.ok 0, st1)

/-- Observable outcome of `close()`: whether an error propagated to the
caller, and whether the control socket was closed. -/
structure CloseOutcome where
  result : Except Err Unit
  ctrlClosed : Bool
deriving DecidableEq, Repr

/-- `FTPClient.close`: issue `QUIT` inside `try/except Exception: pass`, then
close the control socket when one exists (`if self._socket:`).  `hasSocket`
models whether `self._socket` is set. -/
def closeStep (st : Chan) (hasSocket : Bool) : CloseOutcome × Chan :=
  let r := commandStep st "QUIT" none
  (⟨.ok (), hasSocket⟩, r.2)

/-- `FTPClient.connect` after the socket is established: read the welcome
response, then send `USER <username>` and `PASS <password>`, with no expected
codes enforced. -/
def connectSeq (cfg : FTPConfig) (st : Chan) : Except Err Unit × Chan :=
  match readReply st with
  | (.error e, st1) => (.error e, st1)
  | (.ok _, st1) =>
    match commandStep st1 ("USER " ++ cfg.username) none with
    | (.error e, st2) => (.error e, st2)
    | (.ok _, st2) =>
      match commandStep st2 ("PASS " ++ cfg.password) none with
      | (.error e, st3) => (.error e, st3)
      | (.ok _, st3) => (.ok (), st3)

/-- Observables of a data connection created by `_data_connection`: the
address and port it connects to, and, when TLS is applied, the hostname the
server certificate is validated against (`server_hostname=` argument of
`wrap_socket`); `none` when the connection stays plaintext. -/
structure DataConnInfo where
  dhost : String
  dport : Nat
  tlsHost : Option String
deriving DecidableEq, Repr

/-- `FTPClient._data_connection`: run the PASV handshake, connect to the
returned address and port, and if `config.secure` wrap the socket with
`server_hostname = config.host`. -/
def dataConnectionOp (cfg : FTPConfig) (st : Chan) : Except Err DataConnInfo × Chan :=
  match pasvStep st with
  | (.error e, st1) => (.error e, st1)
  | (.ok (h, p), st1) =>
    (.ok ⟨h, p, if cfg.secure then some cfg.host else none⟩, st1)

/-- Directory entry (`FTPEntry`).  `modified` is never populated by the
parser, mirroring the dataclass default `None`. -/
structure FTPEntry where
  name : List Char
  size : Nat
  modified : Option Nat
  is_dir : Bool
  permissions : List Char
  raw : List Char
deriving DecidableEq, Repr

/-- `FTPClient._parse_list_line`: empty line yields nothing; a line splitting
into fewer than 9 whitespace fields becomes an opaque entry named by the raw
line; otherwise field 0 is the permissions string (directory iff it starts
with a `d`), field 4 the size (0 unless fully numeric), field 8 the name. -/
def parseListLine (line : List Char) : Option FTPEntry :=
  if line = [] then none
  else
    let parts := pySplit line (some 8)
    if parts.length < 9 then some ⟨line, 0, none, false, [], line⟩
    else
      let p0 := parts.getD 0 []
      let p4 := parts.getD 4 []
      let p8 := parts.getD 8 []
      some ⟨p8, if pyIsDigitStr p4 then digitsNat p4 else 0, none,
            decide (p0.head? = some 'd'), p0, line⟩

/-- Split on newline characters, keeping empty segments (plain split). -/
def splitOnNL : List Char → List (List Char)
  | [] => [[]]
  | c :: rest =>
    let ps := splitOnNL rest
    if c = '\n' then [] :: ps
    else
      match ps with
      | [] => [[c]]
      | l :: ls => (c :: l) :: ls

/-- Python `str.splitlines()` restricted to `\n` line breaks: like a plain
split on `\n` but with no trailing empty segment. -/
def pySplitlines (s : List Char) : List (List Char) :=
  if s = [] then []
  else
    let parts := splitOnNL s
    if parts.getLast? = some [] then parts.dropLast else parts


/-- One result of `data_sock.recv(8192)` in the streaming loops: a chunk of
bytes (empty meaning EOF, which ends the loop) or a raised socket error. -/
inductive DataEvent where
  | bytes (b : List Char)
  | fail
deriving DecidableEq, Repr

/-- The accumulation loop of `list`: concatenate chunks until an empty recv;
a socket error propagates, and an exhausted script means the real loop would
block. -/
def recvAll : List DataEvent → Except Err (List Char)
  | [] => .error .hang
  | .fail :: _ => .error .transport
  | .bytes [] :: _ => .ok []
  | .bytes b :: rest => (recvAll rest).map (fun d => b ++ d)

/-- The byte-counting loop of `download`: total chunk lengths until EOF. -/
def recvCount : List DataEvent → Except Err Nat
  | [] => .error .hang
  | .fail :: _ => .error .transport
  | .bytes [] :: _ => .ok 0
  | .bytes b :: rest => (recvCount rest).map (fun n => b.length + n)

/-- The sending loop of `upload`: the local file is read as a list of chunks
(an empty chunk ends the loop, as `f.read` returning `b""` does); `net i`
tells whether the i-th `sendall` succeeds or raises. -/
def sendLoop (net : Nat → Bool) : Nat → List (List Char) → Except Err Nat
  | _, [] => .ok 0
  | i, c :: cs =>
    if c = [] then .ok 0
    else if net i then (sendLoop net (i + 1) cs).map (fun n => c.length + n)
    else .error .transport

/-- Observable outcome of one data operation: its return value or error,
whether the data socket was ever opened, whether it was closed by the end of
the operation, and (for transfers) whether the local file handle was opened
and closed. -/
structure OpOutcome (α : Type) where
  result : Except Err α
  dataOpened : Bool
  dataClosed : Bool
  fileOpened : Bool
  fileClosed : Bool
deriving DecidableEq, Repr

/-- `FTPClient.list`: open the data connection, send `LIST [path]`, drain the
data socket, close it, read the final control reply, then parse each line.
`data_sock.close()` is executed only on the straight-line path after the
recv loop finishes — there is no `try/finally` in the source. -/
def listOp (cfg : FTPConfig) (st : Chan) (path : String) (evts : List DataEvent) :
    OpOutcome (List FTPEntry) × Chan :=
  match dataConnectionOp cfg st with
  | (.error e, st1) => (⟨.error e, false, false, false, false⟩, st1)
  | (.ok _, st1) =>
    match commandStep st1 (if path = "" then "LIST" else "LIST " ++ path) none with
    | (.error e, st2) => (⟨.error e, true, false, false, false⟩, st2)
    | (.ok _, st2) =>
      match recvAll evts with
      | .error e => (⟨.error e, true, false, false, false⟩, st2)
      | .ok data =>
        match readReply st2 with
        | (.error e, st3) => (⟨.error e, true, true, false, false⟩, st3)
        | (.ok _, st3) =>
          let entries := (pySplitlines data).filterMap parseListLine
          (⟨.ok entries, true, true, false, false⟩, st3)

/-- `FTPClient.download`: open the data connection, send `TYPE I` and
`RETR remote`, then stream into the local file inside a `with open(...)`
block (so the file handle is released on every exit of the block), close the
data socket, and read the final control reply.  As in the source, the
`data_sock.close()` call is reached only when the recv loop ends normally. -/
def downloadOp (cfg : FTPConfig) (st : Chan) (remote : String)
    (evts : List DataEvent) : OpOutcome Nat × Chan :=
  match dataConnectionOp cfg st with
  | (.error e, st1) => (⟨.error e, false, false, false, false⟩, st1)
  | (.ok _, st1) =>
    match commandStep st1 "TYPE I" none with
    | (.error e, st2) => (⟨.error e, true, false, false, false⟩, st2)
    | (.ok _, st2) =>
      match commandStep st2 ("RETR " ++ remote) none with
      | (.error e, st3) => (⟨.error e, true, false, false, false⟩, st3)
      | (.ok _, st3) =>
        match recvCount evts with
        | .error e => (⟨.error e, true, false, true, true⟩, st3)
        | .ok total =>
          match readReply st3 with
          | (.error e, st4) => (⟨.error e, true, true, true, true⟩, st4)
          | (.ok _, st4) => (⟨.ok total, true, true, true, true⟩, st4)

/-- `FTPClient.upload`: symmetric to `download`, reading the local file by
chunks and sending them; the `with open(...)` block guarantees the file
handle's release, while `data_sock.close()` again sits outside any
`try/finally`. -/
def uploadOp (cfg : FTPConfig) (st : Chan) (remote : String)
    (chunks : List (List Char)) (net : Nat → Bool) : OpOutcome Nat × Chan :=
  match dataConnectionOp cfg st with
  | (.error e, st1) => (⟨.error e, false, false, false, false⟩, st1)
  | (.ok _, st1) =>
    match commandStep st1 "TYPE I" none with
    | (.error e, st2) => (⟨.error e, true, false, false, false⟩, st2)
    | (.ok _, st2) =>
      match commandStep st2 ("STOR " ++ remote) none with
      | (.error e, st3) => (⟨.error e, true, false, false, false⟩, st3)
      | (.ok _, st3) =>
        match sendLoop net 0 chunks with
        | .error e => (⟨.error e, true, false, true, true⟩, st3)
        | .ok total =>
          match readReply st3 with
          | (.error e, st4) => (⟨.error e, true, true, true, true⟩, st4)
          | (.ok _, st4) => (⟨.ok total, true, true, true, true⟩, st4)

/-!
Helper lemmas.
-/

theorem dropWhile_of_all_neg {p : Char → Bool} :
    ∀ (l : List Char), (∀ c ∈ l, p c = false) → l.dropWhile p = l
  | [], _ => rfl
  | c :: cs, h => by simp [List.dropWhile, h c (by simp)]

theorem isDigit_not_pySpace {c : Char} (h : c.isDigit) : isPySpace c = false := by
  by_contra hns
  have hsp : isPySpace c = true := by simpa using hns
  simp only [isPySpace, Bool.or_eq_true, decide_eq_true_eq] at hsp
  rcases hsp with ((((rfl | rfl) | rfl) | rfl) | rfl) | rfl <;> simp [Char.isDigit] at h

theorem pyStrip_of_digits (ds : List Char) (hd : ∀ c ∈ ds, c.isDigit) :
    pyStrip ds = ds := by
  unfold pyStrip
  rw [dropWhile_of_all_neg ds (fun c hc => isDigit_not_pySpace (hd c hc)),
    dropWhile_of_all_neg _
      (fun c hc => isDigit_not_pySpace (hd c (List.mem_reverse.mp hc))),
    List.reverse_reverse]

theorem pyInt_digits (ds : List Char) (hne : ds ≠ []) (hd : ∀ c ∈ ds, c.isDigit) :
    pyInt ds = some (Int.ofNat (digitsNat ds)) := by
  cases ds with
  | nil => exact absurd rfl hne
  | cons c cs =>
    have hc : c.isDigit := hd c (by simp)
    have hcp : c ≠ '+' := by rintro rfl; simp [Char.isDigit] at hc
    have hcm : c ≠ '-' := by rintro rfl; simp [Char.isDigit] at hc
    simp only [pyInt, pyStrip_of_digits _ hd, hcp, hcm, if_false, digitsVal,
      pyIsDigitStr]
    rw [if_pos]
    · rfl
    · simp only [List.isEmpty_cons, Bool.not_false, Bool.true_and,
        List.all_eq_true]
      exact fun x hx => hd x hx

theorem consumeResp_append (pre : List (List Char)) (t : List Char)
    (rest : List (List Char))
    (hpre : ∀ l ∈ pre, ¬(4 ≤ l.length ∧ l[3]? = some ' '))
    (hterm : 4 ≤ t.length) (hsp : t[3]? = some ' ') :
    consumeResp (pre ++ t :: rest) = some (pre ++ [t]) := by
  induction pre with
  | nil => simp [consumeResp, hterm, hsp]
  | cons l pre ih =>
    have hl := hpre l (List.mem_cons_self _ _)
    simp [consumeResp, hl, ih (fun x hx => hpre x (List.mem_cons_of_mem _ hx))]

theorem consumeResp_ne_nil : ∀ (s : List (List Char)) (lines : List (List Char)),
    consumeResp s = some lines → lines ≠ []
  | [], _, h => by simp [consumeResp] at h
  | l :: rest, lines, h => by
    by_cases hc : 4 ≤ l.length ∧ l[3]? = some ' '
    · simp [consumeResp, hc] at h
      simp [← h]
    · simp only [consumeResp, if_neg hc, Option.map_eq_some'] at h
      obtain ⟨ls, _, h2⟩ := h
      simp [← h2]

theorem joinNL_cons (l : List Char) (ls : List (List Char)) (h : ls ≠ []) :
    joinNL (l :: ls) = l ++ '\n' :: joinNL ls := by
  cases ls with
  | nil => exact absurd rfl h
  | cons m rest => simp [joinNL, List.intercalate, List.intersperse]

theorem pySplitGo_length_le (fuel : Nat) : ∀ (s : List Char) (m : Nat),
    (pySplitGo fuel s (some m)).length ≤ m + 1 := by
  induction fuel with
  | zero => intro s m; simp [pySplitGo]
  | succ f ih =>
    intro s m
    cases s with
    | nil => simp [pySplitGo]
    | cons c cs =>
      cases m with
      | zero => simp [pySplitGo]
      | succ m' =>
        simp only [pySplitGo, Option.map_some', Nat.add_sub_cancel,
          List.length_cons]
        exact Nat.succ_le_succ (ih _ m')

theorem getLast?_cons_of_ne_nil {α : Type} (a : α) (l : List α) (h : l ≠ []) :
    (a :: l).getLast? = l.getLast? := by
  cases l with
  | nil => exact absurd rfl h
  | cons b bs =>
    induction bs generalizing a b with
    | nil => rfl
    | cons c cs ih => exact ih b c (by simp)

/-!
Claim theorems.
-/

/-- C5: `rename(old, new)` issues `RNFR` expecting 350 and then `RNTO`
expecting 250; whenever the control channel's first reply to `RNFR` is not a
350 success (a different code, a raised error, or no reply at all), `rename`
fails immediately and `RNTO` is never sent: the only command added to the
sent log is the `RNFR`. -/
theorem rename_rnfr_gate (st : Chan) (old new : String)
    (h : ∀ (msg : String) (rest : List (Except Err (Int × String))),
      st.replies ≠ .ok (350, msg) :: rest) :
    (∃ e, (renameStep st old new).1 = .error e) ∧
    (renameStep st old new).2.sent = st.sent ++ ["RNFR " ++ old] := by
  obtain ⟨rs, sent⟩ := st
  cases rs with
  | nil => exact ⟨⟨.hang, rfl⟩, rfl⟩
  | cons r rest =>
    cases r with
    | error e => exact ⟨⟨e, rfl⟩, rfl⟩
    | ok cm =>
      obtain ⟨c, m⟩ := cm
      have hc : c ≠ 350 := by
        intro hceq
        exact h m rest (by rw [hceq])
      refine ⟨⟨.ftp, ?_⟩, ?_⟩ <;>
        simp [renameStep, commandStep, readReply, hc]

/-- C5 witness: with a single scripted 500 reply, `rename "a" "b"` fails and
only `RNFR a` is sent. -/
theorem rename_rnfr_gate_witness :
    (∃ e, (renameStep ⟨[.ok (500, "no")], []⟩ "a" "b").1 = .error e) ∧
    (renameStep ⟨[.ok (500, "no")], []⟩ "a" "b").2.sent = [] ++ ["RNFR " ++ "a"] :=
  rename_rnfr_gate ⟨[.ok (500, "no")], []⟩ "a" "b"
    (by intro msg rest hcontra; simp at hcontra)

/-- C7: `close()` attempts `QUIT`, swallows any failure from it (including a
raised transport error or an error reply), and closes the control socket
whenever one exists; no error ever propagates to the caller of `close()`. -/
theorem close_best_effort (st : Chan) :
    (closeStep st true).1.result = .ok () ∧
    (closeStep st true).1.ctrlClosed = true ∧
    (closeStep st true).2.sent = st.sent ++ ["QUIT"] := by
  obtain ⟨rs, sent⟩ := st
  cases rs with
  | nil => exact ⟨rfl, rfl, rfl⟩
  | cons r rest => cases r <;> exact ⟨rfl, rfl, rfl⟩

/-- C8: when the reply to `SIZE` carries a code other than 213, `size`
returns 0 without raising; when the code is 213 and the last
whitespace-separated token of the message is an integer `n`, it returns
`n`. -/
theorem size_reply_semantics (st : Chan) (path : String) (code : Int)
    (msg : String) (rest : List (Except Err (Int × String)))
    (h : st.replies = .ok (code, msg) :: rest) :
    (code ≠ 213 → (sizeStep st path).1 = .ok 0) ∧
    (∀ tok n, code = 213 → (pySplit msg.data none).getLast? = some tok →
      pyInt tok = some n → (sizeStep st path).1 = .ok n) := by
  obtain ⟨rs, sent⟩ := st
  simp only at h
  subst h
  constructor
  · intro hc
    simp [sizeStep, commandStep, readReply, hc]
  · intro tok n hc htok hn
    simp [sizeStep, commandStep, readReply, hc, htok, hn]

/-- C8 witness: a 550 reply to `SIZE` yields 0. -/
theorem size_reply_semantics_witness :
    (sizeStep ⟨[.ok (550, "not supported")], []⟩ "f").1 = .ok 0 :=
  (size_reply_semantics ⟨[.ok (550, "not supported")], []⟩ "f" 550
    "not supported" [] rfl).1 (by decide)

/-- C9: when `secure` is configured, the data connection produced by
`_data_connection` is TLS-wrapped with server identity validated against the
session's configured host, irrespective of the address the PASV reply
returned. -/
theorem data_connection_tls_validates_config_host (cfg : FTPConfig) (st : Chan)
    (info : DataConnInfo) (hsec : cfg.secure = true)
    (h : (dataConnectionOp cfg st).1 = .ok info) :
    info.tlsHost = some cfg.host := by
  rcases hx : pasvStep st with ⟨r, st1⟩
  cases r with
  | error e => simp [dataConnectionOp, hx] at h
  | ok hp =>
    obtain ⟨hh, pp⟩ := hp
    simp only [dataConnectionOp, hx, hsec, if_true, Except.ok.injEq] at h
    rw [← h]

/-- C9 witness: a secure session to `example.com` whose PASV reply points at
`1.2.3.4:20` validates the data connection's TLS against `example.com`. -/
theorem data_connection_tls_validates_config_host_witness :
    (DataConnInfo.mk "1.2.3.4" 20 (some "example.com")).tlsHost
      = some "example.com" :=
  data_connection_tls_validates_config_host
    ⟨"example.com", 21, "u", "p", 30, .passive, true⟩
    ⟨[.ok (227, "227 ok (1,2,3,4,0,20)")], []⟩
    ⟨"1.2.3.4", 20, some "example.com"⟩ rfl rfl

/-- C10: a session built without explicit credentials — whether through the
`FTPConfig` dataclass defaults or through the module-level `connect` helper's
defaults — sends `USER anonymous` and `PASS anonymous@` during the connect
sequence. -/
theorem connect_default_credentials (host : String) (st : Chan)
    (w u p : Int × String) (rest : List (Except Err (Int × String)))
    (h : st.replies = .ok w :: .ok u :: .ok p :: rest) :
    ((connectSeq (defaultConfig host) st).1 = .ok () ∧
     (connectSeq (defaultConfig host) st).2.sent
       = st.sent ++ ["USER anonymous", "PASS anonymous@"]) ∧
    ((connectSeq (connectConfig host) st).1 = .ok () ∧
     (connectSeq (connectConfig host) st).2.sent
       = st.sent ++ ["USER anonymous", "PASS anonymous@"]) := by
  obtain ⟨rs, sent⟩ := st
  simp only at h
  subst h
  refine ⟨⟨rfl, ?_⟩, ⟨rfl, ?_⟩⟩ <;>
    simp [connectSeq, commandStep, readReply, defaultConfig, connectConfig]

/-- C10 witness: a concrete three-reply welcome/USER/PASS script. -/
theorem connect_default_credentials_witness :
    ((connectSeq (defaultConfig "h")
        ⟨[.ok (220, "hi"), .ok (331, "user"), .ok (230, "ok")], []⟩).1 = .ok () ∧
     (connectSeq (defaultConfig "h")
        ⟨[.ok (220, "hi"), .ok (331, "user"), .ok (230, "ok")], []⟩).2.sent
       = [] ++ ["USER anonymous", "PASS anonymous@"]) ∧
    ((connectSeq (connectConfig "h")
        ⟨[.ok (220, "hi"), .ok (331, "user"), .ok (230, "ok")], []⟩).1 = .ok () ∧
     (connectSeq (connectConfig "h")
        ⟨[.ok (220, "hi"), .ok (331, "user"), .ok (230, "ok")], []⟩).2.sent
       = [] ++ ["USER anonymous", "PASS anonymous@"]) :=
  connect_default_credentials "h"
    ⟨[.ok (220, "hi"), .ok (331, "user"), .ok (230, "ok")], []⟩
    (220, "hi") (331, "user") (230, "ok") [] rfl

/-- C4: the passive handshake fails (with the client's error, playing the
spec's `DataConnectionError`) whenever the PASV reply code is not 227 or the
message has no parenthesized group of six comma-separated integers; otherwise
it returns the dotted join of the first four integers and port
`p5 * 256 + p6`. -/
theorem pasv_handshake_correct (st : Chan) (code : Int) (msg : String)
    (rest : List (Except Err (Int × String)))
    (h : st.replies = .ok (code, msg) :: rest) :
    (code ≠ 227 → (pasvStep st).1 = .error .ftp) ∧
    (code = 227 → findPasv msg.data = none → (pasvStep st).1 = .error .ftp) ∧
    (∀ a b c d p q, code = 227 → findPasv msg.data = some (a, b, c, d, p, q) →
      (pasvStep st).1 = .ok (dottedQuad a b c d, p * 256 + q)) := by
  obtain ⟨rs, sent⟩ := st
  simp only at h
  subst h
  refine ⟨?_, ?_, ?_⟩
  · intro hc
    simp [pasvStep, commandStep, readReply, hc]
  · intro hc hf
    simp [pasvStep, commandStep, readReply, hc, hf]
  · intro a b c d p q hc hf
    simp [pasvStep, commandStep, readReply, hc, hf]

/-- C4 witness: the spec's example message yields `192.168.1.5:51210`. -/
theorem pasv_handshake_correct_witness :
    (pasvStep ⟨[.ok (227, "227 Entering Passive Mode (192,168,1,5,200,10).")],
      []⟩).1 = .ok ("192.168.1.5", 51210) :=
  ((pasv_handshake_correct
      ⟨[.ok (227, "227 Entering Passive Mode (192,168,1,5,200,10).")], []⟩
      227 "227 Entering Passive Mode (192,168,1,5,200,10)." [] rfl).2.2
    192 168 1 5 200 10 rfl rfl).trans (by rfl)

/-- C6: the listing heuristic splits a raw line into at most 9
whitespace-separated fields; a non-empty line with fewer than 9 fields
becomes a single opaque entry named by the raw line verbatim; a 9-field line
yields permissions = field 0, directory flag = field 0 starts with `d`,
size = field 4 as an integer when fully numeric else 0, and name =
field 8. -/
theorem parse_list_line_correct (l : List Char) (hne : l ≠ []) :
    (pySplit l (some 8)).length ≤ 9 ∧
    ((pySplit l (some 8)).length < 9 →
      parseListLine l = some ⟨l, 0, none, false, [], l⟩) ∧
    ((pySplit l (some 8)).length = 9 →
      parseListLine l = some ⟨(pySplit l (some 8)).getD 8 [],
        (if pyIsDigitStr ((pySplit l (some 8)).getD 4 []) then
          digitsNat ((pySplit l (some 8)).getD 4 []) else 0), none,
        decide (((pySplit l (some 8)).getD 0 []).head? = some 'd'),
        (pySplit l (some 8)).getD 0 [], l⟩) := by
  refine ⟨pySplitGo_length_le _ _ 8, ?_, ?_⟩
  · intro hlt
    simp [parseListLine, hne, hlt]
  · intro heq
    have hnlt : ¬ (pySplit l (some 8)).length < 9 := by omega
    simp [parseListLine, hne, hnlt]

/-- C6 witness: the spec's sample Unix listing line parses to a 1234-byte
non-directory entry named `file.txt`. -/
theorem parse_list_line_correct_witness :
    parseListLine "-rw-r--r-- 1 user group 1234 Jan 1 00:00 file.txt".data
      = some ⟨"file.txt".data, 1234, none, false, "-rw-r--r--".data,
              "-rw-r--r-- 1 user group 1234 Jan 1 00:00 file.txt".data⟩ :=
  ((parse_list_line_correct
      "-rw-r--r-- 1 user group 1234 Jan 1 00:00 file.txt".data
      (by decide)).2.2 (by rfl)).trans (by rfl)

/-- C1: on a well-formed multi-line response stream — any number of
continuation lines that do not satisfy the termination test, then a
terminating line of length at least 4 whose 4th character is a space and
whose first three characters are digits — `_read_response` returns the code
spelled by those three digits together with the newline-join, in order, of
exactly the consumed lines. -/
theorem readResponse_multiline (pre : List (List Char)) (t : List Char)
    (rest : List (List Char)) (d1 d2 d3 : Char)
    (hpre : ∀ l ∈ pre, ¬(4 ≤ l.length ∧ l[3]? = some ' '))
    (hterm : 4 ≤ t.length) (hsp : t[3]? = some ' ')
    (hd : t.take 3 = [d1, d2, d3])
    (hd1 : d1.isDigit) (hd2 : d2.isDigit) (hd3 : d3.isDigit) :
    readResponse (pre ++ t :: rest)
      = .ok (Int.ofNat ((d1.toNat - '0'.toNat) * 100 +
          (d2.toNat - '0'.toNat) * 10 + (d3.toNat - '0'.toNat)),
        joinNL (pre ++ [t])) := by
  have h1 : consumeResp (pre ++ t :: rest) = some (pre ++ [t]) :=
    consumeResp_append pre t rest hpre hterm hsp
  have h2 : (pre ++ [t]).getLast? = some t := List.getLast?_concat pre
  have h3 : pyInt (t.take 3) = some (Int.ofNat (digitsNat [d1, d2, d3])) := by
    rw [hd]
    refine pyInt_digits _ (by simp) ?_
    intro c hc
    simp only [List.mem_cons, List.mem_singleton] at hc
    rcases hc with rfl | rfl | rfl | h
    · exact hd1
    · exact hd2
    · exact hd3
    · exact absurd h (List.not_mem_nil c)
  have h4 : digitsNat [d1, d2, d3]
      = (d1.toNat - '0'.toNat) * 100 + (d2.toNat - '0'.toNat) * 10 +
        (d3.toNat - '0'.toNat) := by
    simp [digitsNat, List.foldl]
    ring
  simp [readResponse, h1, h2, h3, h4]

/-- C1 witness: the stream `220-hi`, `220 ok` yields code 220 and message
`220-hi\n220 ok`. -/
theorem readResponse_multiline_witness :
    readResponse [['2','2','0','-','h','i'], ['2','2','0',' ','o','k']]
      = .ok (220, "220-hi\n220 ok".data) :=
  (readResponse_multiline [['2','2','0','-','h','i']] ['2','2','0',' ','o','k']
    [] '2' '2' '0' (by decide) (by decide) (by decide) (by decide)
    (by decide) (by decide) (by decide)).trans (by rfl)

/-- C3 counterexample: on the stream `ab`, `220 ok` the 2-character line does
not make `_read_response` fail; the call succeeds with code 220 and the short
line folded into the message as a continuation line. -/
theorem short_line_no_protocol_error :
    readResponse [['a','b'], ['2','2','0',' ','o','k']]
      = .ok (220, "ab\n220 ok".data) := rfl

/-- C3 amended: `_read_response` treats a line shorter than 4 characters as a
continuation line rather than failing: the result is that of reading the rest
of the stream with the short line prepended to the message, so the code is
never derived from the short line (it comes from the later terminating line,
and a stream that never terminates leaves the loop spinning, modelled as
`Err.hang`). -/
theorem readResponse_short_line_continuation (l : List Char)
    (stream : List (List Char)) (hshort : l.length < 4) :
    (∀ e, readResponse stream = .error e →
      readResponse (l :: stream) = .error e) ∧
    (∀ c m, readResponse stream = .ok (c, m) →
      readResponse (l :: stream) = .ok (c, l ++ '\n' :: m)) := by
  have hcond : ¬(4 ≤ l.length ∧ l[3]? = some ' ') := by
    rintro ⟨h4, _⟩
    omega
  have hstep : consumeResp (l :: stream)
      = (consumeResp stream).map (fun ls => l :: ls) := by
    simp [consumeResp, hcond]
  cases hcs : consumeResp stream with
  | none =>
    constructor
    · intro e he
      simp only [readResponse, hcs] at he
      simp only [readResponse, hstep, hcs, Option.map_none']
      exact he
    · intro c m he
      simp [readResponse, hcs] at he
  | some lines =>
    have hlne := consumeResp_ne_nil stream lines hcs
    have hlast : (l :: lines).getLast? = lines.getLast? :=
      getLast?_cons_of_ne_nil l lines hlne
    cases lines with
    | nil => exact absurd rfl hlne
    | cons m0 restl =>
      cases hgl : (m0 :: restl).getLast? with
      | none => simp [List.getLast?] at hgl
      | some last =>
        cases hpi : pyInt (last.take 3) with
        | none =>
          constructor
          · intro e he
            simp only [readResponse, hcs, hgl, hpi] at he
            simp only [readResponse, hstep, hcs, Option.map_some', hlast, hgl,
              hpi]
            exact he
          · intro c m he
            simp [readResponse, hcs, hgl, hpi] at he
        | some code =>
          constructor
          · intro e he
            simp [readResponse, hcs, hgl, hpi] at he
          · intro c m he
            simp only [readResponse, hcs, hgl, hpi, Except.ok.injEq,
              Prod.mk.injEq] at he
            obtain ⟨hec, hem⟩ := he
            simp only [readResponse, hstep, hcs, Option.map_some', hlast, hgl,
              hpi, Except.ok.injEq, Prod.mk.injEq]
            exact ⟨hec, by rw [joinNL_cons l (m0 :: restl) (by simp), hem]⟩

/-- C3 amended witness: prepending the short line `ab` to a terminating
stream keeps the code 220 and prepends `ab\n` to the message. -/
theorem readResponse_short_line_continuation_witness :
    readResponse (['a','b'] :: [['2','2','0',' ','o','k']])
      = .ok (220, ['a','b'] ++ '\n' :: "220 ok".data) :=
  (readResponse_short_line_continuation ['a','b'] [['2','2','0',' ','o','k']]
    (by decide)).2 220 "220 ok".data (by rfl)

/-- C2: evaluation of the code at the failing input.  With a successful PASV
handshake (so the data socket is opened) and a data socket whose second
`recv` raises, `download` propagates the transport error without ever
reaching `data_sock.close()`: the outcome records the data connection opened
but not closed (the `with`-scoped local file handle is released). -/
theorem download_leaks_data_socket_on_recv_error :
    (downloadOp (defaultConfig "h")
      ⟨[.ok (227, "227 (1,2,3,4,0,20)"), .ok (200, "ok"), .ok (150, "go")], []⟩
      "f" [.bytes ['x'], .fail]).1
      = ⟨.error .transport, true, false, true, true⟩ := rfl
